import Mathlib

/-!
Verification of the koishi-plugin-chat-model repository.

The JavaScript sources are shallowly embedded below.  The plugin body
(`src/unnamed/part_001`) provides the middleware trigger gate, the message
handler with rolling per-user context, the context store and the daily
usage limiter.  The adapters (`src/lib/openai-adapter.js`,
`src/lib/claude-adapter.js`, `src/lib/gemini-adapter.js`) provide the
provider message formatting, payload extraction, and fixed 60s timeouts.
Roles are kept as the literal strings the code uses.  JavaScript
truthiness tests on strings are rendered as equality with the empty
string, `Math.random() * 100` is rendered as an explicit rational sample
in `[0, 100)`, and database records are rendered as `Option` values
(`none` = no row for the user).
-/

namespace ChatModel

/-- A conversation turn `{role, content}` as stored in the per-user context
by `createMessageHandler` in `src/unnamed/part_001`.  Roles are the literal
strings "system" / "user" / "assistant". -/
structure Msg where
  role : String
  content : String
  deriving DecidableEq, Repr

/-- The `usageLimit` sub-object of the plugin configuration
(`exports.Config`, `src/unnamed/part_001` lines 27-31).
`maxMessagesPerUser = none` models an absent field; the code applies
`|| 100`, which also maps `0` to `100`. -/
structure UsageLimitConfig where
  enabled : Bool
  maxMessagesPerUser : Option Nat
  deriving DecidableEq, Repr

/-- The plugin configuration fields used by the claims
(`exports.Config`, `src/unnamed/part_001` lines 7-32).
`responseTimeout = none` models an absent value (the code applies `|| 60`);
`triggerPrefix = none` models an absent or empty (falsy) prefix. -/
structure PluginConfig where
  systemPrompt : String
  contextSize : Nat
  responseTimeout : Option Nat
  triggerRatio : ℚ
  triggerPrefix : Option String
  triggerPrivate : Bool
  triggerGroup : Bool
  usageLimit : UsageLimitConfig
  deriving DecidableEq, Repr

/-- The session fields read by the middleware and by `shouldIgnoreMessage`
(`src/unnamed/part_001` lines 50-121 and 368-385). -/
structure Session where
  userId : String
  selfId : String
  channelId : String
  content : String
  deriving DecidableEq, Repr

/-- `shouldIgnoreMessage(session, config)` (`src/unnamed/part_001`
lines 368-385): drop self-originated messages, then apply the
private/group channel-kind flags (private ⟺ channelId = userId). -/
def shouldIgnoreMessage (s : Session) (cfg : PluginConfig) : Bool :=
  if s.userId == s.selfId then true
  else
    let isPrivate := s.channelId == s.userId
    if isPrivate && !cfg.triggerPrivate then true
    else if !isPrivate && !cfg.triggerGroup then true
    else false

/-- The middleware prefix rejection (`src/unnamed/part_001` lines 60-62):
`config.triggerPrefix && !session.content.startsWith(config.triggerPrefix)`. -/
def prefixRejects (cfg : PluginConfig) (s : Session) : Bool :=
  match cfg.triggerPrefix with
  | some p => !(s.content.startsWith p)
  | none => false

/-- The content after optional prefix stripping (`src/unnamed/part_001`
lines 64-68): `content.substring(prefix.length).trim()` when a prefix is
configured, the raw content otherwise. -/
def strippedContent (cfg : PluginConfig) (s : Session) : String :=
  match cfg.triggerPrefix with
  | some p => (s.content.drop p.length).trim
  | none => s.content

/-- The structural part of the trigger gate (`src/unnamed/part_001`
lines 55-73): everything before the probabilistic draw.  Returns the
content forwarded to the handler when the message is structurally valid. -/
def structuralAccept (cfg : PluginConfig) (s : Session) : Option String :=
  if shouldIgnoreMessage s cfg then none
  else if prefixRejects cfg s then none
  else if strippedContent cfg s = "" then none
  else some (strippedContent cfg s)

/-- The full trigger gate (`src/unnamed/part_001` lines 55-79): the
structural checks followed by the probabilistic branch
`config.triggerRatio < 100 && Math.random() * 100 > config.triggerRatio`.
`sample` stands for the value of `Math.random() * 100`, a uniform draw
from `[0, 100)`. -/
def gateDecision (cfg : PluginConfig) (s : Session) (sample : ℚ) : Option String :=
  if shouldIgnoreMessage s cfg then none
  else if prefixRejects cfg s then none
  else if strippedContent cfg s = "" then none
  else if cfg.triggerRatio < 100 ∧ sample > cfg.triggerRatio then none
  else some (strippedContent cfg s)

/-- `userContext.splice(1, 2)` (`src/unnamed/part_001` line 206): remove
up to two entries starting at index 1. -/
def splice12 (ctx : List Msg) : List Msg := ctx.take 1 ++ ctx.drop 3

/-- The cap-enforcement loop
`while (userContext.length > config.contextSize * 2 + 1) userContext.splice(1, 2)`
(`src/unnamed/part_001` lines 204-207), run on fuel.  Each iteration of the
source loop strictly shrinks the list (the loop only runs on lists of
length ≥ 2 because `cap ≥ 1`), so fuel equal to the initial length makes
the fueled recursion equal to the while loop. -/
def trimCtx (cap : Nat) : Nat → List Msg → List Msg
  | 0, ctx => ctx
  | fuel + 1, ctx => if cap < ctx.length then trimCtx cap fuel (splice12 ctx) else ctx

/-- Ensuring the system turn (`src/unnamed/part_001` lines 210-218):
unshift a fresh system turn when the context is empty or entry 0 is not a
system turn, otherwise overwrite entry 0's content with the configured
prompt. -/
def ensureSystem (sys : String) (ctx : List Msg) : List Msg :=
  match ctx with
  | [] => [⟨"system", sys⟩]
  | m :: rest =>
    if m.role = "system" then { m with content := sys } :: rest
    else ⟨"system", sys⟩ :: m :: rest

/-- Steps 2-4 of the message handler (`src/unnamed/part_001` lines
197-218): append the user turn, run the cap-enforcement loop, then
ensure/refresh the system turn. -/
def prepareContext (cfg : PluginConfig) (stored : List Msg) (content : String) : List Msg :=
  ensureSystem cfg.systemPrompt
    (trimCtx (cfg.contextSize * 2 + 1) (stored ++ [Msg.mk "user" content]).length
      (stored ++ [Msg.mk "user" content]))

/-- The catch-branch reply of the message handler (`src/unnamed/part_001`
line 244): `` `抱歉，生成回复时发生错误: ${error.message}` ``. -/
def apologyReply (e : String) : String := "抱歉，生成回复时发生错误: " ++ e

/-- One call of the message handler (`src/unnamed/part_001` lines
193-246).  `outcome` is the settled result of the
`Promise.race([generateResponse, timeout])`: `Except.ok response` when the
adapter resolves first, `Except.error e` when it rejects or the timeout
fires.  Returns the context passed to the save step (`none` when the save
is skipped) and the string returned to the middleware. -/
def runMessageHandler (cfg : PluginConfig) (stored : List Msg) (content : String)
    (outcome : Except String String) : Option (List Msg) × String :=
  match outcome with
  | .ok resp => (some (prepareContext cfg stored content ++ [⟨"assistant", resp⟩]), resp)
  | .error e => (none, apologyReply e)

/-- A row of the `chatModelContext` table (`setupDatabase`,
`src/unnamed/part_001` lines 167-176): the serialized turn sequence and
the last-updated epoch-millisecond timestamp. -/
structure ContextRecord where
  context : List Msg
  updatedAt : Nat
  deriving DecidableEq, Repr

/-- `getUserContext` (`src/unnamed/part_001` lines 250-258): the stored
turns, or an empty sequence when the user has no row. -/
def getUserContext (rec? : Option ContextRecord) : List Msg :=
  match rec? with
  | none => []
  | some r => r.context

/-- `saveUserContext` (`src/unnamed/part_001` lines 261-278): upsert —
`set` when a row exists, `create` otherwise; either way the user's row
afterwards holds the full sequence and the fresh timestamp. -/
def saveUserContext (now : Nat) (context : List Msg) (rec? : Option ContextRecord) :
    Option ContextRecord :=
  match rec? with
  | none => some ⟨context, now⟩
  | some _ => some ⟨context, now⟩

/-- `clearUserContext` (`src/unnamed/part_001` lines 281-286): a bare
`database.set`, which updates an existing row to an empty sequence (with a
fresh timestamp) and does nothing when no row exists. -/
def clearUserContext (now : Nat) (rec? : Option ContextRecord) : Option ContextRecord :=
  match rec? with
  | none => none
  | some _ => some ⟨[], now⟩

/-- A row of the `chatModelUsage` table (`setupDatabase`,
`src/unnamed/part_001` lines 179-188). -/
structure UsageRecord where
  dailyCount : Nat
  lastResetDate : String
  deriving DecidableEq, Repr

/-- `config.usageLimit?.maxMessagesPerUser || 100` (`src/unnamed/part_001`
line 333): absent or zero falls back to 100. -/
def effectiveMaxMessages (m : Option Nat) : Nat :=
  match m with
  | none => 100
  | some n => if n = 0 then 100 else n

/-- `checkUsageLimit` (`src/unnamed/part_001` lines 313-334).  `today` is
the current `YYYY-MM-DD` string.  Returns the allowed flag and the user's
row after the call (the date-rollover branch writes `{dailyCount: 0,
lastResetDate: today}` as a side effect). -/
def checkUsageLimit (cfg : PluginConfig) (today : String) (rec? : Option UsageRecord) :
    Bool × Option UsageRecord :=
  match rec? with
  | none => (true, none)
  | some r =>
    if r.lastResetDate ≠ today then (true, some ⟨0, today⟩)
    else (decide (r.dailyCount < effectiveMaxMessages cfg.usageLimit.maxMessagesPerUser),
      some r)

/-- `updateUsageCount` (`src/unnamed/part_001` lines 337-365): create the
row at 1, reset it to 1 on a date rollover, otherwise increment
`dailyCount` (leaving `lastResetDate` untouched). -/
def updateUsageCount (today : String) (rec? : Option UsageRecord) : Option UsageRecord :=
  match rec? with
  | none => some ⟨1, today⟩
  | some r =>
    if r.lastResetDate ≠ today then some ⟨1, today⟩
    else some ⟨r.dailyCount + 1, r.lastResetDate⟩

/-- The context row after the handler's save step: unchanged when the
handler skipped the save, upserted otherwise. -/
def contextAfterSave (now : Nat) (ctxRec : Option ContextRecord)
    (saved : Option (List Msg)) : Option ContextRecord :=
  match saved with
  | none => ctxRec
  | some c => saveUserContext now c ctxRec

/-- The observable outcome of one accepted message: the context row, the
usage row, whether a reply was sent, and the reply text. -/
structure StepResult where
  ctxRec : Option ContextRecord
  usage : Option UsageRecord
  sent : Bool
  reply : String
  deriving DecidableEq, Repr

/-- The middleware body after the gate has accepted a message
(`src/unnamed/part_001` lines 96-110 around `createMessageHandler`):
run the handler, skip sending when the reply is empty (`if (!reply)`),
otherwise send it and — when usage limiting is enabled — call
`updateUsageCount`. -/
def processAccepted (cfg : PluginConfig) (now : Nat) (today : String)
    (ctxRec : Option ContextRecord) (usage : Option UsageRecord)
    (content : String) (outcome : Except String String) : StepResult :=
  if (runMessageHandler cfg (getUserContext ctxRec) content outcome).2 = "" then
    ⟨contextAfterSave now ctxRec (runMessageHandler cfg (getUserContext ctxRec) content outcome).1,
      usage, false, (runMessageHandler cfg (getUserContext ctxRec) content outcome).2⟩
  else
    ⟨contextAfterSave now ctxRec (runMessageHandler cfg (getUserContext ctxRec) content outcome).1,
      if cfg.usageLimit.enabled then updateUsageCount today usage else usage,
      true, (runMessageHandler cfg (getUserContext ctxRec) content outcome).2⟩

/-- A message in Anthropic wire shape (`src/lib/claude-adapter.js`). -/
structure ClaudeMsg where
  role : String
  content : String
  deriving DecidableEq, Repr

/-- The request shape built by `ClaudeAdapter.formatMessages`: the system
text as a distinct field plus the remaining turns. -/
structure ClaudeRequest where
  systemMessage : String
  messages : List ClaudeMsg
  deriving DecidableEq, Repr

/-- `ClaudeAdapter.formatMessages` (`src/lib/claude-adapter.js` lines
36-52): the first system turn's content (or "") becomes the separate
system field; the system turns are filtered out and every remaining turn
is mapped to role "assistant" when its role is "assistant" and to "user"
otherwise. -/
def claudeFormatMessages (msgs : List Msg) : ClaudeRequest :=
  { systemMessage := (((msgs.find? fun m => m.role == "system").map Msg.content).getD ""),
    messages := (msgs.filter fun m => !(m.role == "system")).map
      fun m => ⟨if m.role = "assistant" then "assistant" else "user", m.content⟩ }

/-- A message in Gemini wire shape; `text` is the single
`parts: [{text}]` entry the adapter builds (`src/lib/gemini-adapter.js`). -/
structure GeminiMsg where
  role : String
  text : String
  deriving DecidableEq, Repr

/-- The synthetic acknowledgment turn of `GeminiAdapter.formatMessages`
(`src/lib/gemini-adapter.js` line 51). -/
def geminiAck : String := "我明白了，我会按照指示行动。有什么可以帮助你的吗？"

/-- `GeminiAdapter.formatMessages` (`src/lib/gemini-adapter.js` lines
35-79): a non-empty system text is injected as a synthetic first user
turn `系统指令: …` followed by the model acknowledgment; the non-system
turns follow with role "user" kept and every other role mapped to
"model"; finally a filler user turn `你好` is prepended when the sequence
is empty or does not start with a user turn. -/
def geminiFormatMessages (msgs : List Msg) : List GeminiMsg :=
  let systemMessage := (((msgs.find? fun m => m.role == "system").map Msg.content).getD "")
  let base : List GeminiMsg :=
    if systemMessage = "" then []
    else [⟨"user", "系统指令: " ++ systemMessage⟩, ⟨"model", geminiAck⟩]
  let geminiMessages := base ++ (msgs.filter fun m => !(m.role == "system")).map
      fun m => (⟨if m.role = "user" then "user" else "model", m.content⟩ : GeminiMsg)
  match geminiMessages with
  | [] => [⟨"user", "你好"⟩]
  | g :: gs => if g.role = "user" then g :: gs else ⟨"user", "你好"⟩ :: g :: gs

/-- The first candidate of a Gemini response body as the adapter reads it
(`src/lib/gemini-adapter.js` lines 128-146).  `content = some parts`
models a present `content.parts` holding the part texts; `none` models a
missing `content` (or missing `parts`). -/
structure GeminiCandidate where
  content : Option (List String)
  finishReason : Option String
  deriving DecidableEq, Repr

/-- A Gemini response body: its `candidates` array. -/
structure GeminiPayload where
  candidates : List GeminiCandidate
  deriving DecidableEq, Repr

/-- The fixed user-facing text for a blocked candidate
(`src/lib/gemini-adapter.js` line 138). -/
def geminiSafetyReply : String := "抱歉，您的请求触发了内容安全策略，我无法提供相关内容。"

/-- The invalid-shape error message (`src/lib/gemini-adapter.js` line 133). -/
def geminiInvalidShape : String := "收到无效的API响应"

/-- The response-processing tail of `GeminiAdapter.generateResponse`
(`src/lib/gemini-adapter.js` lines 128-146): first the shape check
(`!candidates || !candidates[0] || !candidates[0].content ||
!candidates[0].content.parts` throws), then the SAFETY translation, then
`parts[0].text.trim()` (which itself throws on an empty `parts` array).
`Except.error` models a thrown error. -/
def geminiExtractText (data : GeminiPayload) : Except String String :=
  match data.candidates.head? with
  | none => .error geminiInvalidShape
  | some c =>
    match c.content with
    | none => .error geminiInvalidShape
    | some parts =>
      if c.finishReason = some "SAFETY" then .ok geminiSafetyReply
      else
        match parts.head? with
        | none => .error "TypeError"
        | some t => .ok t.trim

/-- The OpenAI adapter's request deadline: `const timeout = 60000`
(`src/lib/openai-adapter.js` line 33); the configuration is not consulted. -/
def openaiAdapterTimeoutMs (_cfg : PluginConfig) : Nat := 60000

/-- The Claude adapter's request deadline: `const timeout = 60000`
(`src/lib/claude-adapter.js` line 68); the configuration is not consulted. -/
def claudeAdapterTimeoutMs (_cfg : PluginConfig) : Nat := 60000

/-- The Gemini adapter's request deadline: `const timeout = 60000`
(`src/lib/gemini-adapter.js` line 95); the configuration is not consulted. -/
def geminiAdapterTimeoutMs (_cfg : PluginConfig) : Nat := 60000

/-- The message handler's race deadline
`(config.responseTimeout || 60) * 1000` (`src/unnamed/part_001` line 221). -/
def handlerTimeoutMs (cfg : PluginConfig) : Nat :=
  (match cfg.responseTimeout with
   | none => 60
   | some t => if t = 0 then 60 else t) * 1000

/-- `isPairs rest` holds when `rest` is a sequence of whole user+assistant
pairs — the shape of everything after the system turn in a saved context. -/
def isPairs : List Msg → Bool
  | [] => true
  | u :: a :: rest => u.role == "user" && a.role == "assistant" && isPairs rest
  | [_] => false

/-- The saved-context invariant for a configured `contextSize = n`: the
context is empty (fresh user, or cleared) or consists of a system turn
followed by whole user+assistant pairs, with at most `2n + 1` entries. -/
def contextWF (n : Nat) : List Msg → Bool
  | [] => true
  | s :: rest => s.role == "system" && isPairs rest && decide (rest.length + 1 ≤ 2 * n + 1)

theorem contextWF_cons (n : Nat) (m : Msg) (l : List Msg) :
    contextWF n (m :: l)
      = (m.role == "system" && isPairs l && decide (l.length + 1 ≤ 2 * n + 1)) := rfl

theorem apologyReply_ne_empty (e : String) : apologyReply e ≠ "" := by
  intro h
  have h2 := congrArg String.length h
  simp [apologyReply, String.length_append] at h2
  exact absurd h2.1 (by decide)

theorem trimCtx_of_le (cap fuel : Nat) (ctx : List Msg) (h : ctx.length ≤ cap) :
    trimCtx cap fuel ctx = ctx := by
  cases fuel with
  | zero => rfl
  | succ k => simp [trimCtx, Nat.not_lt.mpr h]

theorem trimCtx_step (cap fuel : Nat) (ctx : List Msg) (h : cap < ctx.length) :
    trimCtx cap (fuel + 1) ctx = trimCtx cap fuel (splice12 ctx) := by
  simp [trimCtx, h]

theorem isPairs_append_pair : ∀ (l : List Msg), isPairs l = true → ∀ c r : String,
    isPairs (l ++ [⟨"user", c⟩, ⟨"assistant", r⟩]) = true
  | [], _, c, r => by simp [isPairs]
  | [_], h, _, _ => by simp [isPairs] at h
  | u :: a :: rest, h, c, r => by
    simp only [isPairs, Bool.and_eq_true] at h
    simp only [List.cons_append, isPairs, Bool.and_eq_true]
    exact ⟨h.1, isPairs_append_pair rest h.2 c r⟩

theorem isPairs_length_even : ∀ (l : List Msg), isPairs l = true → l.length % 2 = 0
  | [], _ => rfl
  | [_], h => by simp [isPairs] at h
  | _ :: _ :: rest, h => by
    simp only [isPairs, Bool.and_eq_true] at h
    have := isPairs_length_even rest h.2
    simp only [List.length_cons]
    omega

/-- C2: when the adapter's `generateResponse` rejects or the timeout fires
first, the message handler skips the save step (the persisted context row
is unchanged by the call) and returns the user-facing apology string
embedding the error message instead of throwing. -/
theorem c2_failure_skips_save (cfg : PluginConfig) (now : Nat) (today : String)
    (ctxRec : Option ContextRecord) (usage : Option UsageRecord)
    (stored : List Msg) (content e : String) :
    runMessageHandler cfg stored content (Except.error e)
      = (none, "抱歉，生成回复时发生错误: " ++ e) ∧
    (processAccepted cfg now today ctxRec usage content (Except.error e)).ctxRec = ctxRec ∧
    (processAccepted cfg now today ctxRec usage content (Except.error e)).reply
      = "抱歉，生成回复时发生错误: " ++ e := by
  refine ⟨rfl, ?_, ?_⟩ <;>
    · simp only [processAccepted, runMessageHandler, contextAfterSave]
      split <;> rfl

/-- C4 counterexample: the Gemini payload whose single candidate carries
`finishReason = "SAFETY"` but no `content.parts` — the realistic shape of
a blocked response — makes `generateResponse` throw the invalid-shape
error rather than return the fixed text, because the shape check at line
131 of `src/lib/gemini-adapter.js` runs before the SAFETY check at line
137. -/
theorem c4_counterexample :
    (GeminiPayload.mk [⟨none, some "SAFETY"⟩]).candidates.head?.map GeminiCandidate.finishReason
      = some (some "SAFETY") ∧
    geminiExtractText ⟨[⟨none, some "SAFETY"⟩]⟩ = Except.error geminiInvalidShape :=
  ⟨rfl, rfl⟩

/-- C4 (amended): for every Gemini payload whose first candidate carries
`finishReason = "SAFETY"` and passes the shape check — `content.parts` is
present — `generateResponse` returns the fixed, non-error, user-facing
text. -/
theorem c4_safety_translated (data : GeminiPayload) (c : GeminiCandidate)
    (parts : List String) (hc : data.candidates.head? = some c)
    (hparts : c.content = some parts) (hsafety : c.finishReason = some "SAFETY") :
    geminiExtractText data = Except.ok geminiSafetyReply := by
  simp [geminiExtractText, hc, hparts, hsafety]

theorem c4_safety_translated_witness :
    (GeminiPayload.mk [⟨some ["你好"], some "SAFETY"⟩]).candidates.head?
        = some ⟨some ["你好"], some "SAFETY"⟩ ∧
    geminiExtractText ⟨[⟨some ["你好"], some "SAFETY"⟩]⟩ = Except.ok geminiSafetyReply :=
  ⟨rfl, c4_safety_translated _ ⟨some ["你好"], some "SAFETY"⟩ ["你好"] rfl rfl rfl⟩

/-- C5: with `maxMessagesPerUser = 3`, a user whose record shows three
uses dated today is refused by a fourth `checkUsageLimit`; on the next
calendar date the first check is allowed and resets the stored count to 0,
and the subsequent `updateUsageCount` then increments it to 1. -/
theorem c5_usage_limit_daily_rollover (cfg : PluginConfig) (d1 d2 : String)
    (hmax : cfg.usageLimit.maxMessagesPerUser = some 3) (hne : d1 ≠ d2) :
    (checkUsageLimit cfg d1 (some ⟨3, d1⟩)).1 = false ∧
    checkUsageLimit cfg d2 (some ⟨3, d1⟩) = (true, some ⟨0, d2⟩) ∧
    updateUsageCount d2 (some ⟨0, d2⟩) = some ⟨1, d2⟩ := by
  refine ⟨?_, ?_, ?_⟩
  · simp [checkUsageLimit, effectiveMaxMessages, hmax]
  · simp [checkUsageLimit, hne]
  · simp [updateUsageCount]

def c5cfg : PluginConfig :=
  ⟨"你是一个有用的AI助手。", 10, some 60, 100, none, true, false, ⟨true, some 3⟩⟩

theorem c5_usage_limit_daily_rollover_witness :
    c5cfg.usageLimit.maxMessagesPerUser = some 3 ∧
    ("2024-03-01" : String) ≠ "2024-03-02" ∧
    ((checkUsageLimit c5cfg "2024-03-01" (some ⟨3, "2024-03-01"⟩)).1 = false ∧
     checkUsageLimit c5cfg "2024-03-02" (some ⟨3, "2024-03-01"⟩)
       = (true, some ⟨0, "2024-03-02"⟩) ∧
     updateUsageCount "2024-03-02" (some ⟨0, "2024-03-02"⟩) = some ⟨1, "2024-03-02"⟩) :=
  ⟨rfl, by decide,
    c5_usage_limit_daily_rollover c5cfg "2024-03-01" "2024-03-02" rfl (by decide)⟩

/-- C6: on the input `[{system, "S"}, {user, "hi"}]` the Gemini formatter
produces exactly three entries with alternating roles starting with
"user": a user turn whose text contains "S", the fixed model
acknowledgment, then the user turn "hi". -/
theorem c6_gemini_system_injection :
    geminiFormatMessages [⟨"system", "S"⟩, ⟨"user", "hi"⟩]
      = [⟨"user", "系统指令: " ++ "S"⟩, ⟨"model", geminiAck⟩, ⟨"user", "hi"⟩] ∧
    (geminiFormatMessages [⟨"system", "S"⟩, ⟨"user", "hi"⟩]).length = 3 ∧
    (geminiFormatMessages [⟨"system", "S"⟩, ⟨"user", "hi"⟩]).map GeminiMsg.role
      = ["user", "model", "user"] ∧
    (∃ a b : String,
      ((geminiFormatMessages [⟨"system", "S"⟩, ⟨"user", "hi"⟩]).headD ⟨"", ""⟩).text
        = a ++ "S" ++ b) :=
  ⟨rfl, rfl, rfl, "系统指令: ", "", rfl⟩

/-- C7: on the input `[{system,"S"},{user,"a"},{assistant,"b"}]` the
Anthropic formatter separates "S" into the system field and keeps exactly
the two turns `[{user,"a"},{assistant,"b"}]`; in general every
non-system, non-assistant input turn folds to role "user", and every
output turn's role is "user" or "assistant". -/
theorem c7_claude_system_extraction :
    claudeFormatMessages [⟨"system", "S"⟩, ⟨"user", "a"⟩, ⟨"assistant", "b"⟩]
      = ⟨"S", [⟨"user", "a"⟩, ⟨"assistant", "b"⟩]⟩ ∧
    (∀ (msgs : List Msg) (m : Msg), m ∈ msgs → m.role ≠ "system" → m.role ≠ "assistant" →
      (⟨"user", m.content⟩ : ClaudeMsg) ∈ (claudeFormatMessages msgs).messages) ∧
    (∀ (msgs : List Msg) (cm : ClaudeMsg), cm ∈ (claudeFormatMessages msgs).messages →
      cm.role = "user" ∨ cm.role = "assistant") := by
  refine ⟨rfl, ?_, ?_⟩
  · intro msgs m hm hs ha
    have hfilter : m ∈ msgs.filter fun x => !(x.role == "system") := by
      simp [List.mem_filter, hm, hs]
    have hmem := List.mem_map_of_mem
      (fun m : Msg =>
        (⟨if m.role = "assistant" then "assistant" else "user", m.content⟩ : ClaudeMsg))
      hfilter
    simpa [claudeFormatMessages, ha] using hmem
  · intro msgs cm hcm
    simp only [claudeFormatMessages, List.mem_map] at hcm
    obtain ⟨m, _, hm⟩ := hcm
    subst hm
    by_cases h : m.role = "assistant" <;> simp [h]

theorem c7_claude_system_extraction_witness :
    (Msg.mk "tool" "x") ∈ [Msg.mk "tool" "x"] ∧
    (⟨"user", "x"⟩ : ClaudeMsg) ∈ (claudeFormatMessages [⟨"tool", "x"⟩]).messages :=
  ⟨by decide,
    c7_claude_system_extraction.2.1 [⟨"tool", "x"⟩] ⟨"tool", "x"⟩
      (by decide) (by decide) (by decide)⟩

/-- C8: clearing a user's context and then loading returns the empty
sequence whether or not a row existed; when a row exists, clearing
replaces its turns with the empty sequence — the row is not deleted and
its timestamp is refreshed. -/
theorem c8_clear_then_load_empty (now : Nat) (rec? : Option ContextRecord) :
    getUserContext (clearUserContext now rec?) = [] ∧
    (∀ r : ContextRecord, rec? = some r → clearUserContext now rec? = some ⟨[], now⟩) := by
  constructor
  · cases rec? <;> rfl
  · intro r hr
    subst hr
    rfl

theorem c8_clear_then_load_empty_witness :
    (some (ContextRecord.mk [⟨"system", "P"⟩] 1) = some ⟨[⟨"system", "P"⟩], 1⟩) ∧
    clearUserContext 5 (some ⟨[⟨"system", "P"⟩], 1⟩) = some ⟨[], 5⟩ :=
  ⟨rfl, (c8_clear_then_load_empty 5 (some ⟨[⟨"system", "P"⟩], 1⟩)).2 ⟨[⟨"system", "P"⟩], 1⟩ rfl⟩

/-- C9: with usage limiting enabled, a turn whose model call fails still
consumes quota: the handler's catch branch returns a non-empty apology,
the middleware sends it and then calls `updateUsageCount`, which adds one
to the day's count. -/
theorem c9_failure_consumes_quota (cfg : PluginConfig) (now : Nat) (today : String)
    (ctxRec : Option ContextRecord) (usage : Option UsageRecord) (content e : String)
    (hEnabled : cfg.usageLimit.enabled = true) :
    (processAccepted cfg now today ctxRec usage content (Except.error e)).usage
      = updateUsageCount today usage ∧
    (processAccepted cfg now today ctxRec usage content (Except.error e)).sent = true ∧
    (∀ k : Nat, updateUsageCount today (some ⟨k, today⟩) = some ⟨k + 1, today⟩) := by
  have hne := apologyReply_ne_empty e
  refine ⟨?_, ?_, ?_⟩
  · simp [processAccepted, runMessageHandler, hne, hEnabled]
  · simp [processAccepted, runMessageHandler, hne]
  · intro k
    simp [updateUsageCount]

def c9cfg : PluginConfig :=
  ⟨"你是一个有用的AI助手。", 10, some 60, 100, none, true, false, ⟨true, some 100⟩⟩

theorem c9_failure_consumes_quota_witness :
    c9cfg.usageLimit.enabled = true ∧
    ((processAccepted c9cfg 7 "2024-03-01" none (some ⟨1, "2024-03-01"⟩) "hi"
        (Except.error "boom")).usage
      = updateUsageCount "2024-03-01" (some ⟨1, "2024-03-01"⟩) ∧
     (processAccepted c9cfg 7 "2024-03-01" none (some ⟨1, "2024-03-01"⟩) "hi"
        (Except.error "boom")).sent = true ∧
     (∀ k : Nat, updateUsageCount "2024-03-01" (some ⟨k, "2024-03-01"⟩)
        = some ⟨k + 1, "2024-03-01"⟩)) :=
  ⟨rfl, c9_failure_consumes_quota c9cfg 7 "2024-03-01" none (some ⟨1, "2024-03-01"⟩)
    "hi" "boom" rfl⟩

/-- C10: every adapter aborts its outbound request after a fixed 60
seconds no matter what `responseTimeout` is configured; only the message
handler's race uses `responseTimeout`, so a value above 60 extends the
race deadline but never the adapter-level one. -/
theorem c10_fixed_adapter_deadline (cfg : PluginConfig) (t : Nat)
    (ht : cfg.responseTimeout = some t) (h60 : 60 < t) :
    openaiAdapterTimeoutMs cfg = 60000 ∧ claudeAdapterTimeoutMs cfg = 60000 ∧
    geminiAdapterTimeoutMs cfg = 60000 ∧ handlerTimeoutMs cfg = t * 1000 ∧
    openaiAdapterTimeoutMs cfg < handlerTimeoutMs cfg ∧
    claudeAdapterTimeoutMs cfg < handlerTimeoutMs cfg ∧
    geminiAdapterTimeoutMs cfg < handlerTimeoutMs cfg := by
  have hne : t ≠ 0 := by omega
  have hht : handlerTimeoutMs cfg = t * 1000 := by
    simp [handlerTimeoutMs, ht, hne]
  refine ⟨rfl, rfl, rfl, hht, ?_, ?_, ?_⟩ <;>
    · rw [hht]
      show 60000 < t * 1000
      omega

def c10cfg : PluginConfig :=
  ⟨"你是一个有用的AI助手。", 10, some 120, 100, none, true, false, ⟨false, none⟩⟩

theorem c10_fixed_adapter_deadline_witness :
    c10cfg.responseTimeout = some 120 ∧ 60 < 120 ∧
    (openaiAdapterTimeoutMs c10cfg = 60000 ∧ claudeAdapterTimeoutMs c10cfg = 60000 ∧
     geminiAdapterTimeoutMs c10cfg = 60000 ∧ handlerTimeoutMs c10cfg = 120 * 1000 ∧
     openaiAdapterTimeoutMs c10cfg < handlerTimeoutMs c10cfg ∧
     claudeAdapterTimeoutMs c10cfg < handlerTimeoutMs c10cfg ∧
     geminiAdapterTimeoutMs c10cfg < handlerTimeoutMs c10cfg) :=
  ⟨rfl, by decide, c10_fixed_adapter_deadline c10cfg 120 rfl (by decide)⟩

def c3cfg : PluginConfig := ⟨"你是一个有用的AI助手。", 10, none, 0, none, true, false, ⟨false, none⟩⟩

def c3session : Session := ⟨"alice", "bot", "alice", "hello"⟩

/-- C3 counterexample: with `triggerRatio = 0` the probabilistic branch is
`Math.random() * 100 > 0`, which does not reject the boundary draw 0 (a
value `Math.random()` can return): a structurally valid message is then
accepted, so the gate does not reject "for every uniform sample drawn from
[0,100)". -/
theorem c3_counterexample :
    c3cfg.triggerRatio = 0 ∧ ((0 : ℚ) ≤ 0 ∧ (0 : ℚ) < 100) ∧
    gateDecision c3cfg c3session 0 = some "hello" := by
  refine ⟨rfl, by norm_num, ?_⟩
  rfl

/-- C3 (amended): with `triggerRatio = 0` every strictly positive sample
from [0,100) is rejected (the gate returns `none` whatever the structural
checks say), so acceptance requires the boundary draw 0; with
`triggerRatio = 100` the probabilistic branch never rejects: every
structurally valid message is accepted with the content the structural
checks produce. -/
theorem c3_trigger_ratio_boundaries :
    (∀ (cfg : PluginConfig) (s : Session) (sample : ℚ),
        cfg.triggerRatio = 0 → 0 < sample → gateDecision cfg s sample = none) ∧
    (∀ (cfg : PluginConfig) (s : Session) (sample : ℚ) (c : String),
        cfg.triggerRatio = 100 → structuralAccept cfg s = some c →
        gateDecision cfg s sample = some c) := by
  constructor
  · intro cfg s sample h0 hs
    unfold gateDecision
    rw [h0]
    split
    · rfl
    · split
      · rfl
      · split
        · rfl
        · rw [if_pos ⟨by norm_num, hs⟩]
  · intro cfg s sample c h100 hacc
    unfold structuralAccept at hacc
    unfold gateDecision
    have hD : ¬((100 : ℚ) < 100 ∧ sample > (100 : ℚ)) := fun h => absurd h.1 (by norm_num)
    rw [h100, if_neg hD]
    exact hacc

def c3cfg100 : PluginConfig :=
  ⟨"你是一个有用的AI助手。", 10, none, 100, none, true, false, ⟨false, none⟩⟩

theorem c3_trigger_ratio_boundaries_witness :
    (c3cfg.triggerRatio = 0 ∧ (0 : ℚ) < 1 ∧ gateDecision c3cfg c3session 1 = none) ∧
    (c3cfg100.triggerRatio = 100 ∧ structuralAccept c3cfg100 c3session = some "hello" ∧
      gateDecision c3cfg100 c3session 37 = some "hello") :=
  ⟨⟨rfl, by norm_num, c3_trigger_ratio_boundaries.1 c3cfg c3session 1 rfl (by norm_num)⟩,
   ⟨rfl, rfl, c3_trigger_ratio_boundaries.2 c3cfg100 c3session 37 "hello" rfl rfl⟩⟩

def c1cexCfg : PluginConfig :=
  ⟨"P", 0, none, 100, none, true, false, ⟨false, none⟩⟩

/-- C1 counterexample: with `contextSize = 0` the configured cap `2N+1` is
1, yet the very first successful turn persists three entries — the trim
loop runs before the system turn is unshifted, so the unshift and the
assistant push overshoot the cap.  The claim's bound fails for the
configured value `N = 0`. -/
theorem c1_counterexample :
    c1cexCfg.contextSize = 0 ∧
    (runMessageHandler c1cexCfg [] "hi" (Except.ok "ok")).1
      = some [⟨"system", "P"⟩, ⟨"user", "hi"⟩, ⟨"assistant", "ok"⟩] ∧
    ¬ ((3 : Nat) ≤ 2 * c1cexCfg.contextSize + 1) :=
  ⟨rfl, by decide, by decide⟩

/-- C1 (amended): for every configured `contextSize = N ≥ 1`, one
successful turn started from a well-formed stored context (empty, or a
system turn followed by whole user+assistant pairs within the cap)
persists a context of length ≤ 2N+1 whose entry 0 is the system turn,
whose tail is whole user+assistant pairs (no odd-length non-system tail),
and which equals the old context plus the new pair — with at most the
oldest user+assistant pair (the entries at indices 1 and 2) evicted, the
system turn never. -/
theorem c1_context_cap_invariant (cfg : PluginConfig) (stored : List Msg)
    (content resp : String) (hN : 1 ≤ cfg.contextSize)
    (hwf : contextWF cfg.contextSize stored = true) :
    ∃ res : List Msg,
      (runMessageHandler cfg stored content (Except.ok resp)).1 = some res ∧
      res.length ≤ 2 * cfg.contextSize + 1 ∧
      res.head?.map Msg.role = some "system" ∧
      isPairs res.tail = true ∧
      contextWF cfg.contextSize res = true ∧
      (res = Msg.mk "system" cfg.systemPrompt :: stored.tail
            ++ [Msg.mk "user" content, Msg.mk "assistant" resp] ∨
       (res = Msg.mk "system" cfg.systemPrompt :: stored.tail.drop 2
            ++ [Msg.mk "user" content, Msg.mk "assistant" resp] ∧
        (stored.tail.take 2).map Msg.role = ["user", "assistant"])) := by
  cases stored with
  | nil =>
    have htrim := trimCtx_of_le (cfg.contextSize * 2 + 1)
      (([] ++ [Msg.mk "user" content]).length) ([] ++ [Msg.mk "user" content])
      (by simp only [List.nil_append, List.length_cons, List.length_nil]; omega)
    refine ⟨[Msg.mk "system" cfg.systemPrompt, Msg.mk "user" content,
      Msg.mk "assistant" resp], ?_, ?_, rfl, ?_, ?_, ?_⟩
    · simp only [runMessageHandler, prepareContext]
      rw [htrim]
      simp [ensureSystem]
    · simp only [List.length_cons, List.length_nil]
      omega
    · simp [isPairs]
    · simp only [contextWF_cons, Bool.and_eq_true, beq_iff_eq, decide_eq_true_eq]
      refine ⟨⟨?_, ?_⟩, ?_⟩
      · trivial
      · simp [isPairs]
      · simp only [List.length_cons, List.length_nil]
        omega
    · left
      simp
  | cons s rest =>
    simp only [contextWF, Bool.and_eq_true, beq_iff_eq, decide_eq_true_eq] at hwf
    obtain ⟨⟨hsys, hpairs⟩, hlen⟩ := hwf
    have heven := isPairs_length_even rest hpairs
    by_cases htrig : rest.length + 2 ≤ cfg.contextSize * 2 + 1
    · have htrim := trimCtx_of_le (cfg.contextSize * 2 + 1)
        (((s :: rest) ++ [Msg.mk "user" content]).length)
        ((s :: rest) ++ [Msg.mk "user" content])
        (by simp only [List.cons_append, List.length_cons, List.length_append,
              List.length_nil]; omega)
      refine ⟨Msg.mk "system" cfg.systemPrompt :: rest
          ++ [Msg.mk "user" content, Msg.mk "assistant" resp], ?_, ?_, rfl, ?_, ?_, ?_⟩
      · simp only [runMessageHandler, prepareContext]
        rw [htrim]
        simp [ensureSystem, hsys]
      · simp only [List.length_cons, List.length_append, List.length_nil]
        omega
      · exact isPairs_append_pair rest hpairs content resp
      · simp only [List.cons_append, contextWF_cons, Bool.and_eq_true, beq_iff_eq,
          decide_eq_true_eq]
        refine ⟨⟨?_, ?_⟩, ?_⟩
        · trivial
        · exact isPairs_append_pair rest hpairs content resp
        · simp only [List.length_append, List.length_cons, List.length_nil]
          omega
      · left
        rfl
    · have hrl : rest.length = 2 * cfg.contextSize := by omega
      rcases rest with _ | ⟨p1, rest1⟩
      · exfalso
        simp only [List.length_nil] at hrl
        omega
      rcases rest1 with _ | ⟨p2, rest2⟩
      · exfalso
        simp [isPairs] at hpairs
      simp only [isPairs, Bool.and_eq_true, beq_iff_eq] at hpairs
      obtain ⟨⟨hp1, hp2⟩, hrest2⟩ := hpairs
      have hl2 : rest2.length + 2 = 2 * cfg.contextSize := by
        simp only [List.length_cons] at hrl
        omega
      have hplen : ((s :: p1 :: p2 :: rest2) ++ [Msg.mk "user" content]).length
          = rest2.length + 3 + 1 := by
        simp only [List.cons_append, List.length_cons, List.length_append,
          List.length_nil]
      have hsplice : splice12 ((s :: p1 :: p2 :: rest2) ++ [Msg.mk "user" content])
          = s :: (rest2 ++ [Msg.mk "user" content]) := by
        simp [splice12]
      have htrim : trimCtx (cfg.contextSize * 2 + 1)
          (((s :: p1 :: p2 :: rest2) ++ [Msg.mk "user" content]).length)
          ((s :: p1 :: p2 :: rest2) ++ [Msg.mk "user" content])
          = s :: (rest2 ++ [Msg.mk "user" content]) := by
        rw [hplen, trimCtx_step _ _ _
            (by simp only [List.cons_append, List.length_cons, List.length_append,
                  List.length_nil]; omega),
          hsplice,
          trimCtx_of_le _ _ _
            (by simp only [List.length_cons, List.length_append, List.length_nil]; omega)]
      refine ⟨Msg.mk "system" cfg.systemPrompt :: rest2
          ++ [Msg.mk "user" content, Msg.mk "assistant" resp], ?_, ?_, rfl, ?_, ?_, ?_⟩
      · simp only [runMessageHandler, prepareContext]
        rw [htrim]
        simp [ensureSystem, hsys]
      · simp only [List.length_cons, List.length_append, List.length_nil]
        omega
      · exact isPairs_append_pair rest2 hrest2 content resp
      · simp only [List.cons_append, contextWF_cons, Bool.and_eq_true, beq_iff_eq,
          decide_eq_true_eq]
        refine ⟨⟨?_, ?_⟩, ?_⟩
        · trivial
        · exact isPairs_append_pair rest2 hrest2 content resp
        · simp only [List.length_append, List.length_cons, List.length_nil]
          omega
      · right
        constructor
        · rfl
        · simp [hp1, hp2]

def c1cfg : PluginConfig :=
  ⟨"P", 1, none, 100, none, true, false, ⟨false, none⟩⟩

def c1stored : List Msg := [⟨"system", "old"⟩, ⟨"user", "x"⟩, ⟨"assistant", "y"⟩]

theorem c1_context_cap_invariant_witness :
    1 ≤ c1cfg.contextSize ∧ contextWF c1cfg.contextSize c1stored = true ∧
    (∃ res : List Msg,
      (runMessageHandler c1cfg c1stored "q" (Except.ok "r")).1 = some res ∧
      res.length ≤ 2 * c1cfg.contextSize + 1 ∧
      res.head?.map Msg.role = some "system" ∧
      isPairs res.tail = true ∧
      contextWF c1cfg.contextSize res = true ∧
      (res = Msg.mk "system" c1cfg.systemPrompt :: c1stored.tail
            ++ [Msg.mk "user" "q", Msg.mk "assistant" "r"] ∨
       (res = Msg.mk "system" c1cfg.systemPrompt :: c1stored.tail.drop 2
            ++ [Msg.mk "user" "q", Msg.mk "assistant" "r"] ∧
        (c1stored.tail.take 2).map Msg.role = ["user", "assistant"]))) :=
  ⟨by decide, by decide,
    c1_context_cap_invariant c1cfg c1stored "q" "r" (by decide) (by decide)⟩

end ChatModel
